import Mathlib

/-!
Verification of the entity-metadata and dynamic parameter-binding layer of
Canyon-SQL against its natural-language specification.

Shallow embedding conventions:
- Rust characters are modelled as their Unicode scalar values (`Nat`); Rust
  strings appearing in the snake-case transform are `List Nat` of codepoints.
- Dynamically-typed values (`dyn Any`) are modelled as a pair of a runtime
  type tag and a payload; `downcast_ref::<T>` succeeds exactly when the tag
  matches `T`.
- A Rust `panic!`/`todo!`/`expect` failure is modelled as a distinguished
  result constructor carrying the panic message: it is an abort, not a
  recoverable value.
-/

namespace CanyonSQL

/- ------------------------------------------------------------------ -/
/- Snake-case table-name transform                                     -/
/- src/canyon_macros/src/lib.rs, database_table_name_from_struct       -/
/- ------------------------------------------------------------------ -/

/-- Rust `char::to_ascii_lowercase` on a Unicode scalar value: ASCII
uppercase letters (65..=90) are shifted by 32, everything else unchanged. -/
def to_ascii_lowercase (c : Nat) : Nat :=
  if 65 ≤ c ∧ c ≤ 90 then c + 32 else c

/-- Rust `char::is_ascii_uppercase`. -/
def is_ascii_uppercase (c : Nat) : Bool :=
  decide (65 ≤ c ∧ c ≤ 90)

/-- The loop body of `database_table_name_from_struct`: iterates over the
characters with a mutable `index` (incremented only while `index < 1`) and a
`table_name` accumulator that characters are pushed onto. -/
def dtnfs_loop : List Nat → Nat → List Nat → List Nat
  | [], _, table_name => table_name
  | c :: rest, index, table_name =>
    if index < 1 then
      dtnfs_loop rest (index + 1) (table_name ++ [to_ascii_lowercase c])
    else if is_ascii_uppercase c then
      dtnfs_loop rest index (table_name ++ [95, to_ascii_lowercase c])
    else
      dtnfs_loop rest index (table_name ++ [c])

/-- `database_table_name_from_struct` from src/canyon_macros/src/lib.rs:
starts with an empty `table_name` and `index = 0` and runs the loop over the
struct identifier's characters.  (95 is the codepoint of the underscore.) -/
def database_table_name_from_struct (struct_name : List Nat) : List Nat :=
  dtnfs_loop struct_name 0 []

/-- The spec's per-character rule for every character after the first:
an ASCII-uppercase character becomes an underscore followed by its lowercased
form; every other character passes through unchanged. -/
def snake_case_char (c : Nat) : List Nat :=
  if is_ascii_uppercase c then [95, to_ascii_lowercase c] else [c]

/-- The deterministic snake-case transform as the spec words it: lowercase
the first character, then apply `snake_case_char` to every subsequent one. -/
def snake_case_transform : List Nat → List Nat
  | [] => []
  | c :: rest => to_ascii_lowercase c :: rest.flatMap snake_case_char

/-- Codepoints of a Lean string literal, to write concrete examples. -/
def str2codes (s : String) : List Nat :=
  s.data.map Char.toNat

/- ------------------------------------------------------------------ -/
/- Dynamic values and downcasts                                        -/
/- src/canyon_crud/src/bounds.rs                                       -/
/- ------------------------------------------------------------------ -/

/-- Runtime type tags relevant to the `AsAny`/`downcast_ref` calls in
bounds.rs: `String`, `&str`, `i32`, `i64`. -/
inductive RustType
  | tString
  | tStr
  | tI32
  | tI64
deriving DecidableEq

/-- Payload carried by a type-erased value. -/
inductive AnyPayload
  | int (n : Int)
  | strv (s : String)
deriving DecidableEq

/-- A `&dyn Any`: a runtime type tag plus the underlying payload. -/
structure AnyVal where
  ty : RustType
  payload : AnyPayload
deriving DecidableEq

/-- The concrete types for which `QueryParameters` is implemented in
bounds.rs: `i32`, `i64`, `String` and `&String`. -/
inductive QPValue
  | i32 (n : Int)
  | i64 (n : Int)
  | str (s : String)
  | refStr (s : String)
deriving DecidableEq

/-- `AsAny::as_any` as it resolves for each `QueryParameters` implementor.
For `&String` there is no `AsAny` impl on the reference type, so method
resolution auto-derefs to the `impl AsAny for String`: the resulting `Any`'s
concrete type is `String` (never `&str`). -/
def as_any : QPValue → AnyVal
  | .i32 n => ⟨.tI32, .int n⟩
  | .i64 n => ⟨.tI64, .int n⟩
  | .str s => ⟨.tString, .strv s⟩
  | .refStr s => ⟨.tString, .strv s⟩

/-- `downcast_ref::<i32>`. -/
def downcast_ref_i32 : AnyVal → Option Int
  | ⟨.tI32, .int n⟩ => some n
  | _ => none

/-- `downcast_ref::<i64>`. -/
def downcast_ref_i64 : AnyVal → Option Int
  | ⟨.tI64, .int n⟩ => some n
  | _ => none

/-- `downcast_ref::<String>`. -/
def downcast_ref_String : AnyVal → Option String
  | ⟨.tString, .strv s⟩ => some s
  | _ => none

/-- `downcast_ref::<&str>`. -/
def downcast_ref_str : AnyVal → Option String
  | ⟨.tStr, .strv s⟩ => some s
  | _ => none

/-- A postgres bind parameter (`&(dyn ToSql + Sync)`) as produced by a
successful `as_postgres_param` downcast. -/
inductive PgParam
  | i32 (n : Int)
  | i64 (n : Int)
  | str (s : String)
deriving DecidableEq

/-- Outcome of `as_postgres_param`: either a parameter, or the
`panic!("Bad conversion of parameters")` branch. -/
inductive ParamResult
  | ok (p : PgParam)
  | panicked (msg : String)
deriving DecidableEq

/-- `QueryParameters::as_postgres_param`, one match per impl in bounds.rs.
Each impl calls `self.as_any()` and downcasts to a fixed target type:
`i32 → i32`, `i64 → i64`, `String → String`, and `&String → &str` (sic);
the `None` branch panics with "Bad conversion of parameters". -/
def as_postgres_param : QPValue → ParamResult
  | .i32 n =>
    match downcast_ref_i32 (as_any (.i32 n)) with
    | some b => .ok (.i32 b)
    | none => .panicked "Bad conversion of parameters"
  | .i64 n =>
    match downcast_ref_i64 (as_any (.i64 n)) with
    | some b => .ok (.i64 b)
    | none => .panicked "Bad conversion of parameters"
  | .str s =>
    match downcast_ref_String (as_any (.str s)) with
    | some b => .ok (.str b)
    | none => .panicked "Bad conversion of parameters"
  | .refStr s =>
    match downcast_ref_str (as_any (.refStr s)) with
    | some b => .ok (.str b)
    | none => .panicked "Bad conversion of parameters"

/-- The tiberius wire values produced by `into_sql` in bounds.rs: only the
`ColumnData::String` and `ColumnData::I32` constructors appear in the code. -/
inductive ColumnData
  | string (s : String)
  | i32 (n : Int)
deriving DecidableEq

/-- Outcome of `into_sql`: a wire value, or the `todo!()` branch (a panic). -/
inductive IntoSqlResult
  | ok (c : ColumnData)
  | todoBranch
deriving DecidableEq

/-- `IntoSql for &dyn QueryParameters` (bounds.rs lines 179-196).  The source
matches on `self.as_any().type_id()` with the patterns `String` and `i32`;
in Rust those are identifier patterns that bind rather than test, so the
first arm always matches and only its `downcast_ref::<String>()` is ever
attempted: a `String` value yields `ColumnData::String` and every other
value falls into the arm's `None => todo!()` branch.  The textually present
`i32 => ColumnData::I32(..)` arm is unreachable. -/
def into_sql (v : QPValue) : IntoSqlResult :=
  match downcast_ref_String (as_any v) with
  | some s => .ok (.string s)
  | none => .todoBranch

/- ------------------------------------------------------------------ -/
/- Row mapper                                                          -/
/- src/canyon_macros/src/lib.rs, CanyonMapper derive                   -/
/- ------------------------------------------------------------------ -/

/-- Declared column kinds, enough to distinguish convertible from
non-convertible cells. -/
inductive SqlKind
  | int
  | text
deriving DecidableEq

/-- A cell of a result row. -/
inductive Cell
  | int (n : Int)
  | text (s : String)
deriving DecidableEq

/-- The kind a cell actually carries. -/
def cell_kind : Cell → SqlKind
  | .int _ => .int
  | .text _ => .text

/-- A generic result row: named columns with cell values. -/
abbrev Row := List (String × Cell)

/-- The two failure modes of `Row::try_get`: the column name is absent, or
the cell is present but not convertible to the requested kind. -/
inductive TryGetError
  | missingColumn
  | wrongType
deriving DecidableEq

/-- Column lookup by name in a row. -/
def row_lookup : Row → String → Option Cell
  | [], _ => none
  | (n, c) :: rest, name => if n = name then some c else row_lookup rest name

/-- `Row::try_get(name)` at a declared kind: error on a missing column,
error on a non-convertible cell, the cell otherwise. -/
def try_get (row : Row) (name : String) (k : SqlKind) : Except TryGetError Cell :=
  match row_lookup row name with
  | none => .error .missingColumn
  | some c => if cell_kind c = k then .ok c else .error .wrongType

/-- One declared field of an entity: its name and declared kind. -/
structure FieldDecl where
  name : String
  kind : SqlKind
deriving DecidableEq

/-- Outcome of a row-mapping (or of any generated code that may panic):
a value, or a panic with its message. -/
inductive MapResult (α : Type)
  | ok (a : α)
  | panicked (msg : String)
deriving DecidableEq

/-- The message passed to `.expect(..)` by the generated field initializer:
`format!("Failed to retrieve the {} field", name)`.  (At runtime Rust's
`expect` appends the debug form of the underlying error, which is opaque
external data; the model keeps the statically generated part.) -/
def expect_msg (name : String) : String :=
  "Failed to retrieve the " ++ name ++ " field"

/-- The generated `RowMapper::deserialize`: a struct literal whose field
initializers run in declared order, each one
`row.try_get(name).expect("Failed to retrieve the {name} field")`.
The first failing `try_get` panics; otherwise the fully populated entity
(here: the ordered list of field-name/cell pairs) is produced. -/
def deserialize : List FieldDecl → Row → MapResult (List (String × Cell))
  | [], _ => .ok []
  | f :: rest, row =>
    match try_get row f.name f.kind with
    | .error _ => .panicked (expect_msg f.name)
    | .ok c =>
      match deserialize rest row with
      | .ok e => .ok ((f.name, c) :: e)
      | .panicked m => .panicked m

/-- The cell a succeeding `try_get` returns for a field (defaulting
arbitrarily when `try_get` fails; only used where it succeeds). -/
def cell_of (row : Row) (f : FieldDecl) : Cell :=
  match try_get row f.name f.kind with
  | .ok c => c
  | .error _ => Cell.int 0

/-- Modelled from the spec: `as_response`, the helper (not under src/, only
its call sites in the generated `find_all`/`find_by_id` are) that per §4.5
and §6 maps each returned row through the Row Mapper.  A panic inside
`deserialize` on any row aborts the whole response. -/
def as_response (fields : List FieldDecl) : List Row → MapResult (List (List (String × Cell)))
  | [] => .ok []
  | r :: rest =>
    match deserialize fields r with
    | .panicked m => .panicked m
    | .ok e =>
      match as_response fields rest with
      | .panicked m => .panicked m
      | .ok es => .ok (e :: es)

/-- The generated `find_by_id` (src/canyon_macros/src/lib.rs lines 163-167):
`__find_by_id(..).await.as_response::<T>()[0].clone()`.  The awaited row
sequence is the model's input; `[0]` on an empty vector is Rust's
index-out-of-bounds panic. -/
def find_by_id (fields : List FieldDecl) (rows : List Row) : MapResult (List (String × Cell)) :=
  match as_response fields rows with
  | .panicked m => .panicked m
  | .ok [] => .panicked "index out of bounds: the len is 0 but the index is 0"
  | .ok (e :: _) => .ok e

/- ------------------------------------------------------------------ -/
/- Update statement                                                    -/
/- src/canyon_macros/src/query_operations/update.rs                    -/
/- ------------------------------------------------------------------ -/

/-- The parameter slice built by `generate_update_tokens`:
`&[&self.f1, .., &self.fn]`, one value per declared field, in declared
order. -/
def generate_update_params (fields : List String) (entity : String → QPValue) : List QPValue :=
  fields.map (fun f => entity f)

/-- A parameterized UPDATE statement in structured form: the SET clause as
(column, placeholder-index) pairs, the WHERE clause column and placeholder,
and the ordered bind parameters. -/
structure UpdateStatement where
  table : String
  set_clauses : List (String × Nat)
  where_column : String
  where_placeholder : Nat
  params : List QPValue
deriving DecidableEq

/-- Assigns ascending placeholder indices (starting at `i`) to a list of
column names. -/
def assign_placeholders : Nat → List (String × QPValue) → List (String × Nat)
  | _, [] => []
  | i, (n, _) :: rest => (n, i) :: assign_placeholders (i + 1) rest

/-- Modelled from the spec: `update(table, field_values, pk_field_name,
pk_value)` — the statement builder behind `CrudOperations::__update`, which
is not under src/ (update.rs only generates its call).  Per §4.4 it emits a
SET clause for every non-key field with placeholders in field order,
followed by a WHERE clause on the key bound to the final placeholder. -/
def update_statement (table : String) (field_values : List (String × QPValue))
    (pk_name : String) (pk_value : QPValue) : UpdateStatement :=
  { table := table
  , set_clauses := assign_placeholders 1 field_values
  , where_column := pk_name
  , where_placeholder := field_values.length + 1
  , params := field_values.map Prod.snd ++ [pk_value] }

/- ------------------------------------------------------------------ -/
/- IN-clause filter                                                    -/
/- src/canyon_crud/src/bounds.rs, InClauseValues                       -/
/- ------------------------------------------------------------------ -/

/-- A token of generated SQL text: a literal fragment or a positional
placeholder. -/
inductive SqlTok
  | lit (s : String)
  | placeholder (i : Nat)
deriving DecidableEq

/-- The placeholder indices occurring in a token list, left to right. -/
def placeholder_indices : List SqlTok → List Nat
  | [] => []
  | .placeholder i :: rest => i :: placeholder_indices rest
  | .lit _ :: rest => placeholder_indices rest

/-- Comma-separates a token list, as the textual `?, ?, …` body of an IN
list. -/
def comma_separated : List SqlTok → List SqlTok
  | [] => []
  | [t] => [t]
  | t :: rest => t :: .lit ", " :: comma_separated rest

/-- Ascending placeholder indices `s, s+1, …` of length `n`. -/
def asc_from : Nat → Nat → List Nat
  | _, 0 => []
  | s, n + 1 => s :: asc_from (s + 1) n

/-- Failure mode of the IN-clause builder. -/
inductive FilterError
  | emptyInClause
deriving DecidableEq

/-- A built filter clause: its SQL tokens and its ordered parameters. -/
structure FilterClause where
  tokens : List SqlTok
  params : List QPValue
deriving DecidableEq

/-- Modelled from the spec: `filter_in(table, field_name, values)` — the
IN-clause builder, not under src/ (bounds.rs only declares the
`InClauseValues` bound its values satisfy).  Per §4.4 it rejects an empty
value sequence with `EmptyInClause` and otherwise builds
`column IN (?, ?, …)` with one ascending positional placeholder per value
and the values, in input order, as the parameter set. -/
def filter_in (table column : String) (values : List QPValue) :
    Except FilterError FilterClause :=
  if values.isEmpty then
    .error .emptyInClause
  else
    .ok
      { tokens := [.lit table, .lit ".", .lit column, .lit " IN ("] ++
          comma_separated ((asc_from 1 values.length).map SqlTok.placeholder) ++ [.lit ")"]
      , params := values }

/- ------------------------------------------------------------------ -/
/- Canyon register                                                     -/
/- src/canyon_macros/src/lib.rs, canyon_managed                        -/
/- ------------------------------------------------------------------ -/

/-- The registration step of `canyon_managed`
(`CANYON_REGISTER.push(ty.to_string())`, src/canyon_macros/src/lib.rs line
71): an unconditional push of the entity name onto the process-wide
register. -/
def canyon_register_push (register : List String) (ty : String) : List String :=
  register ++ [ty]

/- ------------------------------------------------------------------ -/
/- Helper lemmas                                                       -/
/- ------------------------------------------------------------------ -/

theorem dtnfs_loop_one (rest : List Nat) (acc : List Nat) :
    dtnfs_loop rest 1 acc = acc ++ rest.flatMap snake_case_char := by
  induction rest generalizing acc with
  | nil => simp [dtnfs_loop]
  | cons c rest ih =>
    by_cases h : is_ascii_uppercase c
    · simp [dtnfs_loop, h, ih, snake_case_char, List.flatMap_cons]
    · simp [dtnfs_loop, h, ih, snake_case_char, List.flatMap_cons]

theorem dtnfs_eq_snake_case (s : List Nat) :
    database_table_name_from_struct s = snake_case_transform s := by
  cases s with
  | nil => rfl
  | cons c rest =>
    show dtnfs_loop (c :: rest) 0 [] = _
    simp [dtnfs_loop, snake_case_transform, dtnfs_loop_one]

theorem to_lower_not_upper (c : Nat) :
    is_ascii_uppercase (to_ascii_lowercase c) = false := by
  simp only [to_ascii_lowercase, is_ascii_uppercase]
  split <;> (simp only [decide_eq_false_iff_not]; omega)

theorem to_lower_id (c : Nat) (h : is_ascii_uppercase c = false) :
    to_ascii_lowercase c = c := by
  simp only [is_ascii_uppercase, decide_eq_false_iff_not] at h
  unfold to_ascii_lowercase
  rw [if_neg h]

theorem snake_case_char_not_upper (c x : Nat) (hx : x ∈ snake_case_char c) :
    is_ascii_uppercase x = false := by
  unfold snake_case_char at hx
  by_cases h : is_ascii_uppercase c
  · rw [if_pos h] at hx
    simp only [List.mem_cons, List.not_mem_nil, or_false] at hx
    rcases hx with rfl | rfl
    · rfl
    · exact to_lower_not_upper c
  · rw [if_neg h] at hx
    simp only [List.mem_cons, List.not_mem_nil, or_false] at hx
    subst hx
    simp only [Bool.not_eq_true] at h
    exact h

theorem snake_char_id (c : Nat) (h : is_ascii_uppercase c = false) :
    snake_case_char c = [c] := by
  simp [snake_case_char, h]

theorem flatMap_snake_id (l : List Nat) (h : ∀ x ∈ l, is_ascii_uppercase x = false) :
    l.flatMap snake_case_char = l := by
  induction l with
  | nil => rfl
  | cons c rest ih =>
    rw [List.flatMap_cons, snake_char_id c (h c (List.mem_cons_self c rest)),
      ih (fun x hx => h x (List.mem_cons_of_mem c hx))]
    rfl

theorem snake_case_transform_idem (s : List Nat) :
    snake_case_transform (snake_case_transform s) = snake_case_transform s := by
  cases s with
  | nil => rfl
  | cons c rest =>
    show snake_case_transform (to_ascii_lowercase c :: rest.flatMap snake_case_char) =
      to_ascii_lowercase c :: rest.flatMap snake_case_char
    simp only [snake_case_transform]
    rw [to_lower_id _ (to_lower_not_upper c)]
    rw [flatMap_snake_id _ (fun x hx => by
      rcases List.mem_flatMap.mp hx with ⟨d, _, hxd⟩
      exact snake_case_char_not_upper d x hxd)]

theorem assign_placeholders_map_fst (i : Nat) (l : List (String × QPValue)) :
    (assign_placeholders i l).map Prod.fst = l.map Prod.fst := by
  induction l generalizing i with
  | nil => rfl
  | cons p rest ih =>
    obtain ⟨n, v⟩ := p
    simp [assign_placeholders, ih]

theorem asc_from_length (s n : Nat) : (asc_from s n).length = n := by
  induction n generalizing s with
  | zero => rfl
  | succ n ih => simp [asc_from, ih]

theorem assign_placeholders_map_snd (i : Nat) (l : List (String × QPValue)) :
    (assign_placeholders i l).map Prod.snd = asc_from i l.length := by
  induction l generalizing i with
  | nil => rfl
  | cons p rest ih =>
    obtain ⟨n, v⟩ := p
    simp [assign_placeholders, asc_from, ih]

theorem asc_from_chain (s n : Nat) : List.Chain' (· < ·) (asc_from s n) := by
  induction n generalizing s with
  | zero => exact List.chain'_nil
  | succ n ih =>
    rw [asc_from, List.chain'_cons']
    refine ⟨?_, ih (s + 1)⟩
    intro y hy
    cases n with
    | zero => simp [asc_from] at hy
    | succ m =>
      rw [asc_from] at hy
      simp at hy
      omega

theorem placeholder_indices_append (a b : List SqlTok) :
    placeholder_indices (a ++ b) = placeholder_indices a ++ placeholder_indices b := by
  induction a with
  | nil => rfl
  | cons t rest ih => cases t <;> simp [placeholder_indices, ih]

theorem placeholder_indices_comma_separated (l : List Nat) :
    placeholder_indices (comma_separated (l.map SqlTok.placeholder)) = l := by
  induction l with
  | nil => rfl
  | cons i rest ih =>
    cases rest with
    | nil => rfl
    | cons j rest2 =>
      show placeholder_indices (SqlTok.placeholder i :: SqlTok.lit ", " ::
        comma_separated ((j :: rest2).map SqlTok.placeholder)) = i :: j :: rest2
      rw [placeholder_indices, placeholder_indices]
      rw [ih]

/- ------------------------------------------------------------------ -/
/- Claim theorems                                                      -/
/- ------------------------------------------------------------------ -/

/-- Claim C1, counterexample: the claim asserts that a request whose type
does not match the envelope's value yields a recoverable TypeMismatch error
rather than panicking; but `as_postgres_param` on the concrete value
`&String::from("a")` (whose impl downcasts to `&str`, which never matches
the underlying `String`) reaches the `panic!("Bad conversion of
parameters")` branch. -/
theorem C1_counterexample_refString_panics :
    as_postgres_param (QPValue.refStr "a") =
      ParamResult.panicked "Bad conversion of parameters" := rfl

/-- Claim C1, amended: `as_postgres_param` returns the wrapped value itself
whenever the impl's downcast target matches the value's dynamic type (always
the case for `i32`, `i64` and `String`), and on a mismatch (always the case
for `&String`, whose impl downcasts to `&str`) it panics with "Bad
conversion of parameters" instead of returning a recoverable TypeMismatch
error; no recoverable error value exists in this code path. -/
theorem C1_as_postgres_param_behavior (n m : Int) (s t : String) :
    as_postgres_param (QPValue.i32 n) = ParamResult.ok (PgParam.i32 n) ∧
    as_postgres_param (QPValue.i64 m) = ParamResult.ok (PgParam.i64 m) ∧
    as_postgres_param (QPValue.str s) = ParamResult.ok (PgParam.str s) ∧
    as_postgres_param (QPValue.refStr t) =
      ParamResult.panicked "Bad conversion of parameters" :=
  ⟨rfl, rfl, rfl, rfl⟩

/-- Claim C2: the claim says `into_sql` is exhaustive over the supported
value kinds and maps a 32-bit integer to a 32-bit wire integer; but the
source's match on `type_id()` uses the identifier patterns `String` and
`i32`, which bind instead of test, so the first arm always matches, its
`downcast_ref::<String>()` fails on an `i32`, and the conversion of the
value `7_i32` reaches the `todo!()` branch (a panic) instead of producing
`ColumnData::I32(Some(7))`. -/
theorem C2_into_sql_i32_hits_todo :
    into_sql (QPValue.i32 7) = IntoSqlResult.todoBranch := rfl

/-- Claim C3: the derived table name equals the deterministic snake-case
transform — first character lowercased, every subsequent ASCII-uppercase
character replaced by an underscore plus its lowercased form, every other
character passed through — and in particular "LeagueTable" maps to
"league_table". -/
theorem C3_table_name_snake_case :
    (∀ s : List Nat, database_table_name_from_struct s = snake_case_transform s) ∧
    database_table_name_from_struct (str2codes "LeagueTable") = str2codes "league_table" := by
  refine ⟨dtnfs_eq_snake_case, ?_⟩
  decide

/-- Claim C4, counterexample: the claim asserts that mapping a row lacking a
declared column fails with a recoverable MissingColumn error and never
panics; but the generated `deserialize` for an entity declaring the field
"name", applied to a row with no columns, panics via `expect` with
"Failed to retrieve the name field". -/
theorem C4_counterexample_missing_column_panics :
    deserialize [⟨"name", SqlKind.text⟩] [] =
      MapResult.panicked "Failed to retrieve the name field" := by
  decide

/-- Claim C4, amended: the generated `deserialize` processes the declared
fields in declared order; at the first field whose column is absent from the
row or not convertible to the declared kind it panics (via `expect`) with
"Failed to retrieve the {name} field" — the same message for both failure
modes, not a recoverable MissingColumn/ColumnTypeMismatch error — and when
every field is satisfied it returns the fully populated entity; a partially
populated entity is never produced. -/
theorem C4_deserialize_characterization (fields : List FieldDecl) (row : Row) :
    deserialize fields row =
      match fields.find? (fun f => !(try_get row f.name f.kind).isOk) with
      | some f => MapResult.panicked (expect_msg f.name)
      | none => MapResult.ok (fields.map (fun f => (f.name, cell_of row f))) := by
  induction fields with
  | nil => rfl
  | cons f rest ih =>
    cases h : try_get row f.name f.kind with
    | error e =>
      rw [List.find?_cons_of_pos _ (by rw [h]; rfl)]
      simp [deserialize, h]
    | ok c =>
      rw [List.find?_cons_of_neg _ (by rw [h]; simp [Except.isOk, Except.toBool])]
      rw [deserialize, h]
      rw [ih]
      cases hfind : rest.find? (fun g => !(try_get row g.name g.kind).isOk) with
      | some g => simp
      | none => simp [cell_of, h]

/-- Claim C5: the generated update call binds one parameter per declared
field, in declared order, and the statement builder it invokes emits a SET
clause covering exactly the non-key fields (with ascending placeholders in
field order) plus a WHERE clause on the primary-key field, the key appearing
in the WHERE clause and not in the SET list. -/
theorem C5_update_statement_shape (table pk_name : String)
    (field_values : List (String × QPValue)) (pk_value : QPValue)
    (fields : List String) (entity : String → QPValue)
    (hpk : pk_name ∉ field_values.map Prod.fst) :
    ((update_statement table field_values pk_name pk_value).set_clauses.map Prod.fst =
        field_values.map Prod.fst) ∧
    pk_name ∉ (update_statement table field_values pk_name pk_value).set_clauses.map Prod.fst ∧
    (update_statement table field_values pk_name pk_value).where_column = pk_name ∧
    ((update_statement table field_values pk_name pk_value).set_clauses.map Prod.snd =
        asc_from 1 field_values.length) ∧
    (update_statement table field_values pk_name pk_value).where_placeholder =
        field_values.length + 1 ∧
    (update_statement table field_values pk_name pk_value).params =
        field_values.map Prod.snd ++ [pk_value] ∧
    generate_update_params fields entity = fields.map entity := by
  refine ⟨assign_placeholders_map_fst 1 field_values, ?_,
    rfl, assign_placeholders_map_snd 1 field_values, rfl, rfl, rfl⟩
  show pk_name ∉ (assign_placeholders 1 field_values).map Prod.fst
  rw [assign_placeholders_map_fst]
  exact hpk

/-- Claim C5, witness: instantiation at a concrete entity with non-key field
"name" and key "id". -/
theorem C5_update_statement_shape_witness :
    (update_statement "league" [("name", QPValue.str "Foo")] "id"
        (QPValue.i32 1)).where_column = "id" ∧
    (update_statement "league" [("name", QPValue.str "Foo")] "id"
        (QPValue.i32 1)).params = [QPValue.str "Foo", QPValue.i32 1] := by
  have h := C5_update_statement_shape "league" "id" [("name", QPValue.str "Foo")]
    (QPValue.i32 1) ["id", "name"] (fun _ => QPValue.i32 0) (by decide)
  exact ⟨h.2.2.1, h.2.2.2.2.2.1⟩

/-- Claim C6: `filter_in` on an empty value sequence fails with
EmptyInClause and never produces SQL; on a non-empty sequence of length n it
produces SQL containing exactly n placeholders, in ascending positional
order, and a parameter set equal to the input sequence in the same order. -/
theorem C6_filter_in_contract (table column : String) (values : List QPValue) :
    filter_in table column [] = Except.error FilterError.emptyInClause ∧
    (values ≠ [] → ∃ c, filter_in table column values = Except.ok c ∧
      placeholder_indices c.tokens = asc_from 1 values.length ∧
      (placeholder_indices c.tokens).length = values.length ∧
      List.Chain' (· < ·) (placeholder_indices c.tokens) ∧
      c.params = values) := by
  refine ⟨rfl, ?_⟩
  intro hne
  cases values with
  | nil => exact absurd rfl hne
  | cons v vs =>
    have hpi : placeholder_indices
        ([SqlTok.lit table, SqlTok.lit ".", SqlTok.lit column, SqlTok.lit " IN ("] ++
          comma_separated ((asc_from 1 (v :: vs).length).map SqlTok.placeholder) ++
          [SqlTok.lit ")"]) = asc_from 1 (v :: vs).length := by
      rw [placeholder_indices_append, placeholder_indices_append,
        placeholder_indices_comma_separated]
      simp [placeholder_indices]
    exact ⟨_, rfl, hpi, by rw [hpi, asc_from_length],
      by rw [hpi]; exact asc_from_chain 1 _, rfl⟩

/-- Claim C6, witness: instantiation at the spec's example, three integer
values, yielding placeholders 1, 2, 3. -/
theorem C6_filter_in_contract_witness :
    ∃ c, filter_in "league" "id" [QPValue.i32 1, QPValue.i32 2, QPValue.i32 3] =
        Except.ok c ∧
      placeholder_indices c.tokens = [1, 2, 3] ∧
      c.params = [QPValue.i32 1, QPValue.i32 2, QPValue.i32 3] := by
  obtain ⟨c, h1, h2, _, _, h5⟩ :=
    (C6_filter_in_contract "league" "id"
      [QPValue.i32 1, QPValue.i32 2, QPValue.i32 3]).2 (by decide)
  exact ⟨c, h1, by rw [h2]; rfl, h5⟩

/-- Claim C7, counterexample: the claim asserts that a `find_by_id` whose
query returns no row surfaces a specific recoverable error kind and never
panics; but the generated `find_by_id` returns the bare entity and indexes
`[0]` into the mapped response, so on an empty row sequence it panics with
Rust's index-out-of-bounds message. -/
theorem C7_counterexample_empty_result_panics :
    find_by_id [⟨"id", SqlKind.int⟩] [] =
      MapResult.panicked "index out of bounds: the len is 0 but the index is 0" := rfl

/-- Claim C7, amended: the generated `find_by_id` surfaces no recoverable
error kind at all — its return type is the bare entity: on an empty result
it panics with an index-out-of-bounds, a row-mapping failure panics inside
`deserialize`, and it returns normally only when the first returned row maps
completely to an entity. -/
theorem C7_find_by_id_behavior (fields : List FieldDecl) (rows : List Row) :
    (rows = [] → find_by_id fields rows =
        MapResult.panicked "index out of bounds: the len is 0 but the index is 0") ∧
    (∀ e, find_by_id fields rows = MapResult.ok e →
        ∃ r rest, rows = r :: rest ∧ deserialize fields r = MapResult.ok e) := by
  constructor
  · rintro rfl
    rfl
  · intro e he
    cases rows with
    | nil => simp [find_by_id, as_response] at he
    | cons r rest =>
      refine ⟨r, rest, rfl, ?_⟩
      rw [find_by_id, as_response] at he
      cases hd : deserialize fields r with
      | panicked m => rw [hd] at he; simp at he
      | ok ent =>
        rw [hd] at he
        cases hrest : as_response fields rest with
        | panicked m => rw [hrest] at he; simp at he
        | ok es =>
          rw [hrest] at he
          simp at he
          rw [he]

/-- Claim C7, witness: instantiation of the empty-result case at a concrete
(empty) field list. -/
theorem C7_find_by_id_behavior_witness :
    find_by_id ([] : List FieldDecl) ([] : List Row) =
      MapResult.panicked "index out of bounds: the len is 0 but the index is 0" :=
  (C7_find_by_id_behavior [] []).1 rfl

/-- Claim C8, counterexample: the claim asserts that registering the same
entity name twice leaves the register in the same state as registering it
once; but the registration step is an unconditional push, so registering
"League" twice yields ["League", "League"], not ["League"]. -/
theorem C8_counterexample_duplicate_registration :
    canyon_register_push (canyon_register_push [] "League") "League" ≠
      canyon_register_push [] "League" := by
  decide

/-- Claim C8, amended: the register is an append-only sequence, not a keyed
map: every registration call appends the entity name unconditionally, so
re-registering a name accumulates a duplicate entry (the name's occurrence
count grows by one per call) rather than overwriting. -/
theorem C8_register_accumulates (register : List String) (ty : String) :
    canyon_register_push register ty = register ++ [ty] ∧
    (canyon_register_push (canyon_register_push register ty) ty).count ty =
      register.count ty + 2 := by
  refine ⟨rfl, ?_⟩
  simp [canyon_register_push, List.count_append]

/-- Claim C9: for every `&String` value, `as_postgres_param` always reaches
the panic branch: the impl downcasts the underlying `Any` — whose concrete
type is `String`, via the auto-dereffed `AsAny for String` — to `&str`,
which fails for every input, so "Bad conversion of parameters" is not merely
reachable but always taken. -/
theorem C9_refString_always_panics (s : String) :
    as_postgres_param (QPValue.refStr s) =
      ParamResult.panicked "Bad conversion of parameters" := rfl

/-- Claim C10: the snake-case table-name transform is idempotent — its
output never contains an ASCII-uppercase character, so applying
`database_table_name_from_struct` to its own output returns it unchanged. -/
theorem C10_table_name_transform_idempotent (s : List Nat) :
    database_table_name_from_struct (database_table_name_from_struct s) =
      database_table_name_from_struct s := by
  rw [dtnfs_eq_snake_case, dtnfs_eq_snake_case, snake_case_transform_idem]

end CanyonSQL
